import Mathlib

/-!
Shallow embedding of the DevHub client (script.js and the concatenated
devhub.js / React sources) and proofs about its derived-aggregation logic:
project progress recomputation, budget spent/remaining totals,
percentage-of-budget, per-category expense sums, task status writes,
project creation defaults, transaction form validation, and total-budget
rescaling. Numeric JS values are modelled as exact rationals; a value that
JS would parse to NaN (a non-numeric input or a missing field) is modelled
as `none`.
-/

namespace DevHub

/-- Result of the JS expression `x.toFixed(0)` on a number modelled as a
rational, returned as an integer: the nearest integer, ties resolved toward
the larger candidate, following the ECMAScript definition of `toFixed`. -/
def jsToFixed0 (q : ℚ) : ℤ := ⌊q + 1 / 2⌋

/-- Integer value of ten times the JS expression `x.toFixed(1)`: nearest,
ties toward the larger candidate, per ECMAScript. -/
def jsToFixed1 (q : ℚ) : ℤ := ⌊q * 10 + 1 / 2⌋

/-- Rendering of `x.toFixed(1)` as a string, for a nonnegative value. -/
def jsToFixed1String (q : ℚ) : String :=
  toString (jsToFixed1 q / 10) ++ "." ++ toString (jsToFixed1 q % 10)

/-- Task document as read by the progress-aggregation effect of
`ProjectDetailView`; only `name` and `status` are inspected there. -/
structure Task where
  name : String
  status : String
deriving Repr, DecidableEq

/-- Progress string computed by the aggregation effect in `ProjectDetailView`
(part_000 lines 1400-1402): `totalTasks > 0 ?
((completedTasks / totalTasks) * 100).toFixed(0) + "%" : "0%"` where
`completedTasks` counts tasks whose status is `Completed`. -/
def newProgress (tasks : List Task) : String :=
  let completedTasks := (tasks.filter (fun t => t.status == "Completed")).length
  let totalTasks := tasks.length
  if 0 < totalTasks then
    toString (jsToFixed0 (((completedTasks : ℚ) / (totalTasks : ℚ)) * 100)) ++ "%"
  else "0%"

/-- One run of the recompute-and-write-back effect of `ProjectDetailView`
(part_000 lines 1398-1418), as the optional write it issues against the
project document: `some s` models an `updateDoc` call setting the progress
field to `s`, while `none` models the run performing no write. -/
def progressEffectWrite (projectProgress : String) (tasks : List Task) :
    Option String :=
  if 0 < tasks.length then
    let np := newProgress tasks
    if projectProgress ≠ np then some np else none
  else if projectProgress ≠ "0%" then some "0%" else none

/-- Team member record stored on a project document (part_000 line 1240). -/
structure TeamMember where
  userId : String
  role : String
  displayName : String
deriving Repr, DecidableEq

/-- Budget category allocation stored on a project document
(part_000 lines 1241-1243, rescaled at lines 2114-2118). -/
structure BudgetCategory where
  name : String
  allocatedAmount : ℚ
deriving Repr, DecidableEq

/-- Project document, restricted to the fields the claims inspect. -/
structure Project where
  name : String
  description : String
  targetReleaseDate : String
  initialBudget : ℚ
  status : String
  progress : String
  teamMembers : List TeamMember
  budgetCategories : List BudgetCategory
deriving Repr, DecidableEq

/-- Application of the optional write of the progress effect to the cached
project document. -/
def applyProgressEffect (p : Project) (tasks : List Task) : Project :=
  match progressEffectWrite p.progress tasks with
  | some s => { p with progress := s }
  | none => p

/-- Derived progress exactly as the specification words it: the number of
completed tasks divided by the total number of tasks, times 100, rounded to
an integer and rendered as a percentage string; `0%` for an empty list. -/
def derivedProgressSpec (tasks : List Task) : String :=
  if tasks.length = 0 then "0%"
  else
    toString
      (round ((100 * (tasks.countP (fun t => t.status == "Completed") : ℚ)) /
        (tasks.length : ℚ))) ++ "%"

lemma newProgress_eq_spec (tasks : List Task) :
    newProgress tasks = derivedProgressSpec tasks := by
  unfold newProgress derivedProgressSpec jsToFixed0
  rcases Nat.eq_zero_or_pos tasks.length with h | h
  · simp [h]
  · rw [if_pos h, if_neg (Nat.pos_iff_ne_zero.mp h)]
    have hc : ((tasks.filter (fun t => t.status == "Completed")).length : ℚ) =
        (tasks.countP (fun t => t.status == "Completed") : ℚ) := by
      rw [List.countP_eq_length_filter]
    rw [round_eq, hc]
    ring_nf

lemma progressEffectWrite_eq (s : String) (tasks : List Task) :
    progressEffectWrite s tasks =
      if s = derivedProgressSpec tasks then none
      else some (derivedProgressSpec tasks) := by
  unfold progressEffectWrite
  rcases Nat.eq_zero_or_pos tasks.length with h | h
  · have hd : derivedProgressSpec tasks = "0%" := by
      simp [derivedProgressSpec, h]
    rw [if_neg (by omega), hd]
    by_cases hs : s = "0%" <;> simp [hs]
  · rw [if_pos h]
    simp only [newProgress_eq_spec tasks]
    by_cases hs : s = derivedProgressSpec tasks <;> simp [hs]

/-- C1: the derived project progress recomputed by the aggregation effect of
`ProjectDetailView` equals the number of tasks with status `Completed`
divided by the total number of tasks, times 100, rounded to an integer and
rendered as a percentage string; when the task list is empty the derived
progress is `0%`; every write the effect issues carries exactly this derived
value. -/
theorem progress_effect_computes_completion_percentage (tasks : List Task) :
    newProgress tasks = derivedProgressSpec tasks ∧
    newProgress [] = "0%" ∧
    ∀ s : String, progressEffectWrite s tasks = none ∨
      progressEffectWrite s tasks = some (derivedProgressSpec tasks) := by
  refine ⟨newProgress_eq_spec tasks, rfl, fun s => ?_⟩
  rw [progressEffectWrite_eq]
  by_cases hs : s = derivedProgressSpec tasks <;> simp [hs]

/-- C3: the recompute-and-write-back step for project progress writes the
derived value exactly when it differs from the cached value, performs no
write and leaves the project document unchanged when the cached value already
equals the derived one, and a second run directly after a first one never
writes. -/
theorem progress_writeback_idempotent (p : Project) (tasks : List Task) :
    (p.progress ≠ derivedProgressSpec tasks →
      progressEffectWrite p.progress tasks = some (derivedProgressSpec tasks)) ∧
    (p.progress = derivedProgressSpec tasks →
      progressEffectWrite p.progress tasks = none ∧
      applyProgressEffect p tasks = p) ∧
    progressEffectWrite (applyProgressEffect p tasks).progress tasks = none := by
  refine ⟨fun hne => ?_, fun heq => ?_, ?_⟩
  · rw [progressEffectWrite_eq, if_neg hne]
  · constructor
    · rw [progressEffectWrite_eq, if_pos heq]
    · unfold applyProgressEffect
      rw [progressEffectWrite_eq, if_pos heq]
  · unfold applyProgressEffect
    rw [progressEffectWrite_eq p.progress tasks]
    by_cases heq : p.progress = derivedProgressSpec tasks
    · rw [if_pos heq]
      rw [progressEffectWrite_eq, if_pos heq]
    · rw [if_neg heq]
      rw [progressEffectWrite_eq]
      simp

/-- Concrete project document used by witness theorems. -/
def sampleProject : Project :=
  { name := "Pixel Tycoon"
    description := "demo project"
    targetReleaseDate := "2026-12-01"
    initialBudget := 5000
    status := "Planning"
    progress := "0%"
    teamMembers := [{ userId := "u1", role := "Owner", displayName := "You" }]
    budgetCategories := [{ name := "General", allocatedAmount := 5000 }] }

/-- Witness for C3 at a concrete input: a project cached at `0%` with no
tasks triggers no write and is left unchanged. -/
theorem progress_writeback_idempotent_witness :
    progressEffectWrite sampleProject.progress [] = none ∧
    applyProgressEffect sampleProject [] = sampleProject :=
  (progress_writeback_idempotent sampleProject []).2.1 (by decide)

/-- Transaction document of the budget transactions subcollection, as read by
the transactions listener in `loadProjectBudget` (script.js lines 623-650) and
written by `handleTransactionFormSubmission` (script.js lines 900-906).
`amount` models `parseFloat(transaction.amount)`: `none` stands for a
non-numeric amount, so that `parseFloat(x) || 0` is `amount.getD 0`. -/
structure Transaction where
  description : String
  amount : Option ℚ
  date : String
  category : String
  type : String
deriving Repr, DecidableEq

/-- Folding step of the transactions listener (script.js lines 629-637): the
pair accumulates `totalSpentFromTransactions` and
`totalIncomeFromTransactions`; a transaction of any other type is ignored. -/
def spentIncomeStep (acc : ℚ × ℚ) (t : Transaction) : ℚ × ℚ :=
  if t.type == "expense" then (acc.1 + t.amount.getD 0, acc.2)
  else if t.type == "income" then (acc.1, acc.2 + t.amount.getD 0)
  else acc

/-- Totals accumulated over a transactions snapshot
(script.js lines 624-637). -/
def sumSpentIncome (ts : List Transaction) : ℚ × ℚ :=
  ts.foldl spentIncomeStep (0, 0)

/-- Category row of the script.js budget view (name input and amount input). -/
structure CategoryRow where
  name : String
  amount : ℚ
deriving Repr, DecidableEq

/-- Budget-view state of script.js: the total-budget input, the spent input,
the rendered category rows and the displayed percentage text. -/
structure BudgetUIState where
  total : ℚ
  spent : ℚ
  categories : List CategoryRow
  percentText : String
deriving Repr, DecidableEq

/-- Percentage computed by `updateBudgetProgress` (script.js lines 790-797):
division guarded by `totalBudget > 0`, then
`Math.min(100, Math.max(0, percentage))`. -/
def computedPercentage (totalBudget totalSpent : ℚ) : ℚ :=
  min 100 (max 0 (if 0 < totalBudget then totalSpent / totalBudget * 100 else 0))

/-- Effect of `updateBudgetProgress` (script.js lines 789-811) on the budget
view: it rewrites the displayed percentage text from the total and spent
inputs and touches nothing else. -/
def updateBudgetProgress (st : BudgetUIState) : BudgetUIState :=
  { st with percentText := jsToFixed1String (computedPercentage st.total st.spent) ++ "%" }

/-- Transactions snapshot handler of `loadProjectBudget` (script.js lines
623-650): recomputes the spent input from the transaction list, then
refreshes the progress display. -/
def onTransactionsSnapshot (ts : List Transaction) (st : BudgetUIState) :
    BudgetUIState :=
  updateBudgetProgress { st with spent := (sumSpentIncome ts).1 }

/-- Main-budget document snapshot handler of `loadProjectBudget`
(script.js lines 585-619): rewrites the total input and the category rows
from the budget document, then refreshes the progress display; the spent
input is not touched. -/
def onBudgetDocSnapshot (docTotal : Option ℚ) (cats : List CategoryRow)
    (st : BudgetUIState) : BudgetUIState :=
  updateBudgetProgress { st with total := docTotal.getD 0, categories := cats }

lemma sumSpentIncome_fst_aux (ts : List Transaction) (acc : ℚ × ℚ) :
    (ts.foldl spentIncomeStep acc).1 =
      acc.1 + ((ts.filter (fun t => t.type == "expense")).map
        (fun t => t.amount.getD 0)).sum := by
  induction ts generalizing acc with
  | nil => simp
  | cons t ts ih =>
    rw [List.foldl_cons, ih]
    by_cases h : t.type == "expense"
    · simp only [spentIncomeStep, if_pos h, List.filter_cons, h, ite_true,
        List.map_cons, List.sum_cons]
      ring
    · by_cases h2 : t.type == "income" <;>
        simp [spentIncomeStep, h, h2, List.filter_cons]

lemma onTransactionsSnapshot_spent (ts : List Transaction) (st : BudgetUIState) :
    (onTransactionsSnapshot ts st).spent =
      ((ts.filter (fun t => t.type == "expense")).map
        (fun t => t.amount.getD 0)).sum := by
  show (sumSpentIncome ts).1 = _
  rw [sumSpentIncome, sumSpentIncome_fst_aux]
  simp

/-- C2: the displayed spent total (the spent input of the budget view) equals
the sum of the amounts of the transactions whose type is `expense`, a
non-numeric amount counting as 0; appending an income transaction leaves the
spent total unchanged, and a budget document change (which carries the edited
category allocations) never touches the spent input. -/
theorem spent_total_from_expense_transactions (ts : List Transaction)
    (st : BudgetUIState) :
    (onTransactionsSnapshot ts st).spent =
      ((ts.filter (fun t => t.type == "expense")).map
        (fun t => t.amount.getD 0)).sum ∧
    (∀ t : Transaction, t.type = "income" →
      (onTransactionsSnapshot (ts ++ [t]) st).spent =
        (onTransactionsSnapshot ts st).spent) ∧
    (∀ (docTotal : Option ℚ) (cats : List CategoryRow),
      (onBudgetDocSnapshot docTotal cats st).spent = st.spent) := by
  refine ⟨onTransactionsSnapshot_spent ts st, fun t ht => ?_, fun docTotal cats => rfl⟩
  rw [onTransactionsSnapshot_spent, onTransactionsSnapshot_spent]
  have hne : ¬(t.type == "expense") = true := by
    simp [ht]
  simp [List.filter_append, List.filter_cons, hne]

/-- Concrete expense transaction used by witness theorems. -/
def sampleExpenseTx : Transaction :=
  { description := "Software License Fee"
    amount := some 60
    date := "2026-01-05"
    category := "General"
    type := "expense" }

/-- Concrete income transaction used by witness theorems. -/
def sampleIncomeTx : Transaction :=
  { description := "Publisher advance"
    amount := some 500
    date := "2026-01-06"
    category := "General"
    type := "income" }

/-- Concrete budget-view state used by witness theorems. -/
def sampleBudgetState : BudgetUIState :=
  { total := 200
    spent := 0
    categories := [{ name := "Development", amount := 0 }]
    percentText := "0.0%" }

/-- Witness for C2 at a concrete input: appending an income transaction does
not change the spent total computed from one expense transaction. -/
theorem spent_total_from_expense_transactions_witness :
    (onTransactionsSnapshot ([sampleExpenseTx] ++ [sampleIncomeTx])
        sampleBudgetState).spent =
      (onTransactionsSnapshot [sampleExpenseTx] sampleBudgetState).spent :=
  (spent_total_from_expense_transactions [sampleExpenseTx]
    sampleBudgetState).2.1 sampleIncomeTx rfl

/-- C4: the computed percentage-of-budget equals spent over total times 100
clamped into the closed interval from 0 to 100 when the total is positive,
equals 0 when the total is zero or negative (the division is guarded), always
lies between 0 and 100, and is displayed via `toFixed(1)`, that is rounded to
one decimal place. -/
theorem budget_percentage_guarded_and_clamped (st : BudgetUIState) :
    (0 < st.total →
      computedPercentage st.total st.spent =
        min 100 (max 0 (st.spent / st.total * 100))) ∧
    (st.total ≤ 0 → computedPercentage st.total st.spent = 0) ∧
    0 ≤ computedPercentage st.total st.spent ∧
    computedPercentage st.total st.spent ≤ 100 ∧
    (updateBudgetProgress st).percentText =
      jsToFixed1String (computedPercentage st.total st.spent) ++ "%" := by
  refine ⟨fun hpos => ?_, fun hle => ?_, ?_, ?_, rfl⟩
  · rw [computedPercentage, if_pos hpos]
  · rw [computedPercentage, if_neg (not_lt.mpr hle)]
    norm_num
  · exact le_min (by norm_num) (le_max_left 0 _)
  · exact min_le_left _ _

/-- Witness for C4 at a concrete input: with a positive total of 200 and a
spent value of 50 the computed percentage is the unclamped ratio times 100. -/
theorem budget_percentage_guarded_and_clamped_witness :
    computedPercentage sampleBudgetState.total 50 =
      min 100 (max 0 ((50 : ℚ) / sampleBudgetState.total * 100)) :=
  (budget_percentage_guarded_and_clamped
    { sampleBudgetState with spent := 50 }).1 (by norm_num [sampleBudgetState])

/-- Expense document of the React `BudgetOverview` expenses subcollection
(part_000 lines 2080-2100), written by `AddExpenseForm` (part_000 lines
2469-2476). `amount` is `none` when the document holds no numeric amount,
which JS arithmetic propagates as NaN. -/
structure Expense where
  description : String
  amount : Option ℚ
  category : String
  date : String
deriving Repr, DecidableEq

/-- One step of the `spentPerCategory` reduce (part_000 lines 2183-2186):
the accumulator object maps a category name to `none` when the key is absent
or holds NaN, both of which the JS guard against 0 collapses to 0; adding a
missing amount yields NaN, modelled as `none`. -/
def spentPerCategoryStep (acc : String → Option ℚ) (e : Expense) :
    String → Option ℚ :=
  fun name =>
    if name = e.category then
      match e.amount with
      | some a => some ((acc e.category).getD 0 + a)
      | none => none
    else acc name

/-- Per-category spent map computed in `BudgetOverview`
(part_000 lines 2183-2186), starting from the empty object. -/
def spentPerCategory (expenses : List Expense) : String → Option ℚ :=
  expenses.foldl spentPerCategoryStep (fun _ => none)

/-- Per-category spent amount as shown in the category card
(part_000 line 2265): the stored value, or 0 for an absent key. -/
def shownCategorySpent (expenses : List Expense) (name : String) : ℚ :=
  (spentPerCategory expenses name).getD 0

lemma spentPerCategory_aux (es : List Expense) (acc : String → Option ℚ)
    (name : String) (h : ∀ e ∈ es, e.amount.isSome) :
    ((es.foldl spentPerCategoryStep acc) name).getD 0 =
      (acc name).getD 0 + ((es.filter (fun e => e.category == name)).map
        (fun e => e.amount.getD 0)).sum := by
  induction es generalizing acc with
  | nil => simp
  | cons e es ih =>
    obtain ⟨a, ha⟩ := Option.isSome_iff_exists.mp (h e (List.mem_cons_self e es))
    rw [List.foldl_cons, ih _ (fun x hx => h x (List.mem_cons_of_mem e hx))]
    by_cases hc : e.category = name
    · have hstep : (spentPerCategoryStep acc e) name =
          some ((acc name).getD 0 + a) := by
        rw [spentPerCategoryStep, if_pos hc.symm, ha, hc]
      rw [hstep, List.filter_cons, if_pos (by simp [hc]), List.map_cons,
        List.sum_cons, ha]
      simp only [Option.getD_some]
      ring
    · have hstep : (spentPerCategoryStep acc e) name = acc name := by
        rw [spentPerCategoryStep, if_neg (fun hn => hc hn.symm)]
      rw [hstep, List.filter_cons, if_neg (by simp [hc])]

/-- C5: for a list of expense records all carrying a numeric amount, the
per-category spent amount shown in the budget overview equals the sum of the
amounts of exactly those expenses whose category field equals the card name,
so each expense contributes to its own category only. -/
theorem category_spent_is_filtered_sum (expenses : List Expense) (name : String)
    (h : ∀ e ∈ expenses, e.amount.isSome) :
    shownCategorySpent expenses name =
      ((expenses.filter (fun e => e.category == name)).map
        (fun e => e.amount.getD 0)).sum := by
  rw [shownCategorySpent, spentPerCategory, spentPerCategory_aux _ _ _ h]
  simp

/-- Concrete expense list used by witness theorems: two Art expenses of 5 and
3 and one Scripting expense of 7. -/
def sampleExpenses : List Expense :=
  [ { description := "Concept art", amount := some 5, category := "Art",
      date := "2026-01-02" },
    { description := "Plugin", amount := some 7, category := "Scripting",
      date := "2026-01-03" },
    { description := "Texture pack", amount := some 3, category := "Art",
      date := "2026-01-04" } ]

/-- Witness for C5 at a concrete input: the Art card shows 5 + 3 = 8. -/
theorem category_spent_is_filtered_sum_witness :
    shownCategorySpent sampleExpenses "Art" = 8 :=
  (category_spent_is_filtered_sum sampleExpenses "Art" (by decide)).trans
    (by simp +decide [sampleExpenses, List.filter_cons]; norm_num)

/-- Total spent shown in `BudgetOverview` (part_000 line 2171):
the reduce adds `expense.amount || 0` over every expense record. -/
def totalSpent (expenses : List Expense) : ℚ :=
  expenses.foldl (fun sum e => sum + e.amount.getD 0) 0

/-- Remaining budget shown in `BudgetOverview` (part_000 line 2172). -/
def remainingBudget (currentInitialBudget : ℚ) (expenses : List Expense) : ℚ :=
  currentInitialBudget - totalSpent expenses

lemma totalSpent_foldl_aux (es : List Expense) (init : ℚ) :
    es.foldl (fun sum e => sum + e.amount.getD 0) init =
      init + (es.map (fun e => e.amount.getD 0)).sum := by
  induction es generalizing init with
  | nil => simp
  | cons e es ih =>
    rw [List.foldl_cons, ih, List.map_cons, List.sum_cons]
    ring

/-- C6: the remaining-budget total shown in the budget overview equals the
initial budget minus the sum of all expense amounts, a missing amount
counting as 0, and it is negative whenever the spent total exceeds the
initial budget. -/
theorem remaining_budget_is_initial_minus_spent (initial : ℚ)
    (expenses : List Expense) :
    remainingBudget initial expenses =
      initial - (expenses.map (fun e => e.amount.getD 0)).sum ∧
    (initial < totalSpent expenses → remainingBudget initial expenses < 0) := by
  constructor
  · rw [remainingBudget, totalSpent, totalSpent_foldl_aux]
    ring
  · intro hlt
    rw [remainingBudget]
    exact sub_neg.mpr hlt

/-- Witness for C6 at a concrete input: an initial budget of 10 against the
sample expense total of 15 leaves a negative remaining budget. -/
theorem remaining_budget_is_initial_minus_spent_witness :
    remainingBudget 10 sampleExpenses < 0 :=
  (remaining_budget_is_initial_minus_spent 10 sampleExpenses).2
    (by norm_num [totalSpent, sampleExpenses])

/-- Category rescaling performed by `handleUpdateTotalBudget`
(part_000 lines 2114-2118): each allocated amount is scaled through the old
and new totals when both are positive, and kept as is otherwise. -/
def rescaleCategories (cats : List BudgetCategory)
    (currentInitialBudget newBudgetAmount : ℚ) : List BudgetCategory :=
  cats.map (fun cat =>
    { cat with allocatedAmount :=
        if 0 < newBudgetAmount ∧ 0 < currentInitialBudget then
          cat.allocatedAmount / currentInitialBudget * newBudgetAmount
        else cat.allocatedAmount })

/-- C10: when the total budget changes between two positive values, every
category allocation is rescaled by the factor new over old, so each category
keeps its fraction of the total budget; when the old or the new total is 0
the allocations are left unchanged. -/
theorem total_budget_rescale_preserves_fractions (cats : List BudgetCategory)
    (oldTotal newTotal : ℚ) :
    (0 < oldTotal → 0 < newTotal →
      rescaleCategories cats oldTotal newTotal =
        cats.map (fun cat =>
          { cat with allocatedAmount := cat.allocatedAmount * (newTotal / oldTotal) }) ∧
      (rescaleCategories cats oldTotal newTotal).map
          (fun cat => cat.allocatedAmount / newTotal) =
        cats.map (fun cat => cat.allocatedAmount / oldTotal)) ∧
    ((oldTotal = 0 ∨ newTotal = 0) → rescaleCategories cats oldTotal newTotal = cats) := by
  constructor
  · intro ho hn
    constructor
    · rw [rescaleCategories]
      refine List.map_congr_left (fun cat _ => ?_)
      rw [if_pos ⟨hn, ho⟩]
      congr 1
      ring
    · rw [rescaleCategories, List.map_map]
      refine List.map_congr_left (fun cat _ => ?_)
      simp only [Function.comp_apply, if_pos (And.intro hn ho)]
      rw [mul_div_assoc, div_self hn.ne', mul_one]
  · intro h0
    have hcond : ¬(0 < newTotal ∧ 0 < oldTotal) := by
      rcases h0 with h | h <;> rintro ⟨hn, ho⟩ <;> simp [h] at hn ho
    rw [rescaleCategories]
    conv_rhs => rw [← List.map_id cats]
    refine List.map_congr_left (fun cat _ => ?_)
    rw [if_neg hcond]
    rfl

/-- Witness for C10 at a concrete input: doubling a 100 budget doubles the
single 50 allocation. -/
theorem total_budget_rescale_preserves_fractions_witness :
    rescaleCategories [{ name := "General", allocatedAmount := 50 }] 100 200 =
      [{ name := "General", allocatedAmount := (50 : ℚ) * (200 / 100) }] :=
  ((total_budget_rescale_preserves_fractions
      [{ name := "General", allocatedAmount := 50 }] 100 200).1
    (by norm_num) (by norm_num)).1

/-- Status dropdown options offered by `TaskDetailModal`
(part_000 line 1842). -/
def statusOptions : List String :=
  ["To Do", "In Progress", "Ready for Review", "Completed"]

/-- Task statuses as the specification enumerates them: To Do, In Progress,
Reviewing, Completed, plus the legacy Blocked and Done variants. -/
def specEnumeratedStatuses : List String :=
  ["To Do", "In Progress", "Reviewing", "Completed", "Blocked", "Done"]

/-- Task document fields written by the React task operations
(part_000 lines 1682-1692 and 1886-1895). -/
structure TaskDoc where
  name : String
  description : String
  assignee : String
  dueDate : Option String
  priority : String
  role : String
  status : String
deriving Repr, DecidableEq

/-- Task document created by the submit handler of `CreateTaskForm`
(part_000 lines 1682-1692): an empty assignee falls back to `Unassigned` and
the status is hard-coded to `To Do`. -/
def createTaskDoc (taskName description assignee : String)
    (dueDate : Option String) (priority role : String) : TaskDoc :=
  { name := taskName
    description := description
    assignee := if assignee = "" then "Unassigned" else assignee
    dueDate := dueDate
    priority := priority
    role := role
    status := "To Do" }

/-- Edit-form state of `TaskDetailModal` (part_000 lines 1833-1839): the
status field is bound to a select whose options are `statusOptions`. -/
structure TaskEditForm where
  editName : String
  editDescription : String
  editAssignee : String
  editDueDate : Option String
  editPriority : String
  editRole : String
  editStatus : String
deriving Repr, DecidableEq

/-- Update written by `handleUpdateTask` of `TaskDetailModal`
(part_000 lines 1886-1895): every edited field is written back, the status
taken verbatim from the form state. -/
def handleUpdateTask (t : TaskDoc) (f : TaskEditForm) : TaskDoc :=
  { t with
    name := f.editName
    description := f.editDescription
    assignee := f.editAssignee
    dueDate := f.editDueDate
    priority := f.editPriority
    role := f.editRole
    status := f.editStatus }

/-- Concrete stored task used by the C7 theorems. -/
def sampleTaskDoc : TaskDoc :=
  { name := "Implement Jump Mechanic"
    description := "Detailed steps"
    assignee := "John Doe"
    dueDate := some "2026-02-01"
    priority := "Medium"
    role := "Scripting"
    status := "In Progress" }

/-- Concrete edit form choosing the dropdown option `Ready for Review`. -/
def sampleEditForm : TaskEditForm :=
  { editName := "Implement Jump Mechanic"
    editDescription := "Detailed steps"
    editAssignee := "John Doe"
    editDueDate := some "2026-02-01"
    editPriority := "Medium"
    editRole := "Scripting"
    editStatus := "Ready for Review" }

/-- C7 counterexample: `Ready for Review` is one of the four options the edit
modal offers, and saving the form with it stores a task status outside the
enumerated set claimed by the specification. -/
theorem task_status_escapes_spec_enumeration :
    "Ready for Review" ∈ statusOptions ∧
    (handleUpdateTask sampleTaskDoc sampleEditForm).status = "Ready for Review" ∧
    (handleUpdateTask sampleTaskDoc sampleEditForm).status ∉ specEnumeratedStatuses := by
  decide

/-- C7 amended: every task status written through the React task creation and
editing operations is drawn from the four dropdown options To Do, In
Progress, Ready for Review and Completed: creation hard-codes `To Do`, and an
edit whose status comes from the dropdown stores one of the four options. -/
theorem task_status_within_dropdown_options
    (n d a : String) (dd : Option String) (p r : String)
    (t : TaskDoc) (f : TaskEditForm) (hf : f.editStatus ∈ statusOptions) :
    (createTaskDoc n d a dd p r).status ∈ statusOptions ∧
    (handleUpdateTask t f).status ∈ statusOptions := by
  constructor
  · show "To Do" ∈ statusOptions
    decide
  · simpa [handleUpdateTask] using hf

/-- Witness for the amended C7 at a concrete input: a created task and the
sample edit both store a status among the four dropdown options. -/
theorem task_status_within_dropdown_options_witness :
    (createTaskDoc "Polish menu" "" "" none "Low" "UI").status ∈ statusOptions ∧
    (handleUpdateTask sampleTaskDoc sampleEditForm).status ∈ statusOptions :=
  task_status_within_dropdown_options "Polish menu" "" "" none "Low" "UI"
    sampleTaskDoc sampleEditForm (by decide)

/-- Activity log entry, restricted to the fields the claims inspect. -/
structure ActivityLogEntry where
  type : String
  description : String
  userId : String
deriving Repr, DecidableEq

/-- Project document created by the submit handler of `CreateProjectForm`
(part_000 lines 1232-1244). `initialBudgetInput` models
`parseFloat(initialBudget)`, with `none` for an empty or non-numeric entry,
so the stored budget is `parseFloat(initialBudget) || 0`. -/
def createProjectDoc (projectName description targetReleaseDate : String)
    (initialBudgetInput : Option ℚ) (uid : String) : Project :=
  { name := projectName
    description := description
    targetReleaseDate := targetReleaseDate
    initialBudget := initialBudgetInput.getD 0
    status := "Planning"
    progress := "0%"
    teamMembers := [{ userId := uid, role := "Owner", displayName := "You" }]
    budgetCategories :=
      [{ name := "General", allocatedAmount := initialBudgetInput.getD 0 }] }

/-- Activity log entry appended right after project creation
(part_000 lines 1247-1252). -/
def createProjectLogEntry (projectName uid : String) : ActivityLogEntry :=
  { type := "Project Created"
    description := "Project \"" ++ projectName ++ "\" was created."
    userId := uid }

/-- C8: every project created through the create-project form starts with
status `Planning`, progress `0%`, a team roster holding exactly the creating
user with role `Owner`, and exactly one budget category named `General` whose
allocation equals the stored initial budget, which is 0 when the entered
budget is empty or non-numeric; the appended activity log entry has type
`Project Created`. -/
theorem new_project_default_state (pn d rd : String) (b : Option ℚ)
    (uid : String) :
    (createProjectDoc pn d rd b uid).status = "Planning" ∧
    (createProjectDoc pn d rd b uid).progress = "0%" ∧
    (createProjectDoc pn d rd b uid).teamMembers =
      [{ userId := uid, role := "Owner", displayName := "You" }] ∧
    (createProjectDoc pn d rd b uid).budgetCategories =
      [{ name := "General", allocatedAmount := b.getD 0 }] ∧
    (createProjectDoc pn d rd b uid).budgetCategories.map
        (fun c => c.allocatedAmount) =
      [(createProjectDoc pn d rd b uid).initialBudget] ∧
    (b = none → (createProjectDoc pn d rd b uid).initialBudget = 0) ∧
    (createProjectLogEntry pn uid).type = "Project Created" := by
  refine ⟨rfl, rfl, rfl, rfl, rfl, ?_, rfl⟩
  rintro rfl
  rfl

/-- Witness for C8 at a concrete input: a project created with an empty
budget field stores an initial budget of 0. -/
theorem new_project_default_state_witness :
    (createProjectDoc "Pixel Tycoon" "demo" "2026-12-01" none "u1").initialBudget = 0 :=
  (new_project_default_state "Pixel Tycoon" "demo" "2026-12-01" none
    "u1").2.2.2.2.2.1 rfl

/-- Raw transaction form inputs (script.js lines 900-906). `amountInput`
models `parseFloat(transactionAmountInput.value)`, with `none` for a
non-numeric entry; `expenseChecked` is the expense/income radio state. -/
structure TransactionForm where
  descriptionInput : String
  amountInput : Option ℚ
  dateInput : String
  categoryInput : String
  expenseChecked : Bool
deriving Repr, DecidableEq

/-- JS `String.prototype.trim`: strips leading and trailing whitespace,
written by structural recursion over the character list so that concrete
inputs evaluate inside the kernel. -/
def jsTrim (s : String) : String :=
  ⟨((s.data.dropWhile Char.isWhitespace).reverse.dropWhile
      Char.isWhitespace).reverse⟩

/-- Transaction document assembled from the form by
`handleTransactionFormSubmission` (script.js lines 900-906). -/
def mkTransactionData (f : TransactionForm) : Transaction :=
  { description := jsTrim f.descriptionInput
    amount := some (f.amountInput.getD 0)
    date := f.dateInput
    category := f.categoryInput
    type := if f.expenseChecked then "expense" else "income" }

/-- One submission of the transaction form (script.js lines 892-930), as its
effect on the transaction collection together with the message shown:
validation failure returns the collection untouched, an edit rewrites the
document under the edited id, and an add appends one document under the id
the database assigns. -/
def handleTransactionFormSubmission (f : TransactionForm)
    (editing : Option String) (newId : String)
    (store : List (String × Transaction)) :
    List (String × Transaction) × String :=
  let d := mkTransactionData f
  if d.description = "" ∨ d.amount.getD 0 ≤ 0 ∨ d.date = "" then
    (store, "Validation Error")
  else
    match editing with
    | some tid => (store.map (fun p => if p.1 = tid then (p.1, d) else p), "Success")
    | none => (store ++ [(newId, d)], "Success")

/-- C9: submitting the transaction form with an empty (trimmed) description,
a non-positive or non-numeric amount, or an empty date performs no database
write and ends with a validation error; with all three valid, an add appends
exactly one document carrying the entered description, amount, date, category
and the radio-selected type, and an edit rewrites exactly the document under
the edited id to those fields. -/
theorem transaction_submission_validated (f : TransactionForm)
    (newId : String) (store : List (String × Transaction)) :
    ((jsTrim f.descriptionInput = "" ∨ f.amountInput.getD 0 ≤ 0 ∨
        f.dateInput = "") →
      ∀ editing : Option String,
        handleTransactionFormSubmission f editing newId store =
          (store, "Validation Error")) ∧
    (¬(jsTrim f.descriptionInput = "" ∨ f.amountInput.getD 0 ≤ 0 ∨
        f.dateInput = "") →
      handleTransactionFormSubmission f none newId store =
        (store ++
          [(newId,
            { description := jsTrim f.descriptionInput
              amount := some (f.amountInput.getD 0)
              date := f.dateInput
              category := f.categoryInput
              type := if f.expenseChecked then "expense" else "income" })],
          "Success") ∧
      (handleTransactionFormSubmission f none newId store).1.length =
        store.length + 1 ∧
      ∀ tid : String,
        handleTransactionFormSubmission f (some tid) newId store =
          (store.map (fun p => if p.1 = tid then (p.1, mkTransactionData f) else p),
            "Success")) := by
  have hcond : ((mkTransactionData f).description = "" ∨
      (mkTransactionData f).amount.getD 0 ≤ 0 ∨ (mkTransactionData f).date = "") ↔
      (jsTrim f.descriptionInput = "" ∨ f.amountInput.getD 0 ≤ 0 ∨
        f.dateInput = "") := by
    simp [mkTransactionData]
  constructor
  · intro hbad editing
    show (if _ then _ else _) = _
    rw [if_pos (hcond.mpr hbad)]
  · intro hok
    have hmain : handleTransactionFormSubmission f none newId store =
        (store ++ [(newId, mkTransactionData f)], "Success") := by
      show (if _ then _ else _) = _
      rw [if_neg (fun hb => hok (hcond.mp hb))]
    refine ⟨?_, ?_, fun tid => ?_⟩
    · rw [hmain]
      rfl
    · rw [hmain]
      simp
    · show (if _ then _ else _) = _
      rw [if_neg (fun hb => hok (hcond.mp hb))]

/-- Concrete valid transaction form used by the C9 witness. -/
def sampleValidForm : TransactionForm :=
  { descriptionInput := " Coffee for playtest "
    amountInput := some 5
    dateInput := "2026-01-07"
    categoryInput := "General"
    expenseChecked := true }

/-- Witness for C9 at a concrete input: a valid form appends exactly one
transaction document built from the entered fields. -/
theorem transaction_submission_validated_witness :
    handleTransactionFormSubmission sampleValidForm none "t1" [] =
      ([("t1", mkTransactionData sampleValidForm)], "Success") :=
  ((transaction_submission_validated sampleValidForm "t1" []).2
    (by decide)).1

end DevHub
